import Mathlib

/-!
# Verification of the sub2api OpenAI-compat protocol translator

Shallow embedding of the Go sources under
`backend/internal/pkg/openaicompat` (`types.go`, `request_transformer.go`,
`response_transformer.go`) and `backend/internal/service/openai_compat_gateway_service.go`.

Conventions of the embedding:
* Go `int` is modelled as `Int`; counters that start at 0 and only grow are `Nat`.
* `json.RawMessage` fields that the code probes with `json.Unmarshal` are
  modelled as inductive types enumerating the parse outcomes the code
  distinguishes (string / block list / failure), with the raw bytes kept for
  the pass-through cases.
* External effects are explicit parameters: `time.Now().UnixMilli()` is a
  `Nat` argument, `rand.Intn(62)` draws are a `Fin 12 → Fin 62` argument,
  and `json.Unmarshal` of streaming payload bytes is a
  `String → Option StreamChunk` decoding function.
* SSE framing (`event: …\ndata: …\n\n`) is abstracted into an `Event`
  inductive carrying exactly the payload fields the events serialize.
-/

/-- Claude usage triple (`antigravity.ClaudeUsage`); the wire type is
modelled from the spec §3 (the `antigravity` package is not part of the
provided sources). -/
structure ClaudeUsage where
  inputTokens : Int := 0
  outputTokens : Int := 0
  cacheReadInputTokens : Int := 0
deriving Repr, DecidableEq

/-- `openaicompat.PromptTokensDetails` from `types.go`. -/
structure PromptTokensDetails where
  cachedTokens : Int := 0
deriving Repr, DecidableEq

/-- `openaicompat.Usage` from `types.go`. -/
structure Usage where
  promptTokens : Int := 0
  completionTokens : Int := 0
  totalTokens : Int := 0
  promptTokensDetails : Option PromptTokensDetails := none
deriving Repr, DecidableEq

/-- `openaicompat.FunctionCall` from `types.go`. -/
structure FunctionCall where
  name : String := ""
  arguments : String := ""
deriving Repr, DecidableEq

/-- `openaicompat.ToolCall` from `types.go`. -/
structure ToolCall where
  index : Int := 0
  id : String := ""
  type : String := ""
  function : FunctionCall := {}
deriving Repr, DecidableEq

/-- `openaicompat.Thinkingfield`/`ThinkingDelta` content+signature pair
(`types.go` declares both with the same two string fields). -/
structure ThinkingField where
  content : String := ""
  signature : String := ""
deriving Repr, DecidableEq

/-- Go `unicode.IsSpace` restricted to Latin-1 (the whitespace Go's
`strings.TrimSpace` strips; inputs beyond Latin-1 whitespace are not
modelled). -/
def isGoSpace (c : Char) : Bool :=
  c == ' ' || c == '\t' || c == '\n' || c == '\u000b' || c == '\u000c' || c == '\r' ||
  c == '\u0085' || c == '\u00a0'

/-- Go `strings.TrimSpace`. -/
def trimSpace (s : String) : String :=
  String.mk (((s.data.dropWhile isGoSpace).reverse.dropWhile isGoSpace).reverse)

/-- Go `strings.HasPrefix` on character lists. -/
def dataStartsWith : List Char → List Char → Bool
  | _, [] => true
  | [], _ :: _ => false
  | c :: cs, d :: ds => c == d && dataStartsWith cs ds

/-- Go `strings.HasPrefix`. -/
def strHasDataPre (s pre : String) : Bool := dataStartsWith s.data pre.data

/-- Go `strings.Join`. -/
def joinWith (sep : String) : List String → String
  | [] => ""
  | [x] => x
  | x :: xs => x ++ sep ++ joinWith sep xs

/-- The 62-character alphabet used by `randomID` in `response_transformer.go`. -/
def idCharList : List Char :=
  "abcdefghijklmnopqrstuvwxyzABCDEFGHIJKLMNOPQRSTUVWXYZ0123456789".data

theorem idCharList_length : idCharList.length = 62 := rfl

/-- `randomID` from `response_transformer.go`: twelve draws from the
62-character alphabet.  The `rand.Intn(62)` results are supplied as the
argument `r`. -/
def randomID (r : Fin 12 → Fin 62) : String :=
  String.mk ((List.finRange 12).map fun i =>
    idCharList.get (Fin.cast idCharList_length.symm (r i)))

/-- `convertID` from `response_transformer.go`: a non-empty upstream id is
returned unchanged, an empty one is replaced by a fresh `msg_`-prefixed id. -/
def convertID (openaiID : String) (r : Fin 12 → Fin 62) : String :=
  if openaiID != "" then openaiID else "msg_" ++ randomID r

/-- `generateFakeSignature` from `response_transformer.go`: the decimal
string of the current Unix-millisecond clock (supplied as `now`). -/
def generateFakeSignature (now : Nat) : String := toString now

/-- `extractUsage` from `response_transformer.go`. -/
def extractUsage (u : Option Usage) : ClaudeUsage :=
  match u with
  | none => {}
  | some u =>
    let cachedTokens : Int :=
      match u.promptTokensDetails with
      | some d => d.cachedTokens
      | none => 0
    let inputTokens := u.promptTokens - cachedTokens
    let inputTokens := if inputTokens < 0 then 0 else inputTokens
    { inputTokens := inputTokens
      outputTokens := u.completionTokens
      cacheReadInputTokens := cachedTokens }

/-- `mapFinishReason` from `response_transformer.go`. -/
def mapFinishReason (finishReason : String) (hasToolUse : Bool) : String :=
  if hasToolUse then "tool_use"
  else
    match finishReason with
    | "stop" => "end_turn"
    | "tool_calls" => "tool_use"
    | "length" => "max_tokens"
    | "content_filter" => "end_turn"
    | _ => "end_turn"

/-- Parse outcome of a non-streaming `ChatMessage.Content` raw field as
probed by `TransformOpenAIToClaude` (`json.Unmarshal` into a string;
absent or non-string content leaves the text empty). -/
inductive RespContent
  | absent
  | str (s : String)
  | nonString (raw : String)
deriving Repr, DecidableEq

/-- The fields of `openaicompat.ChatMessage` that the non-streaming
response transformer reads. -/
structure RespMessage where
  content : RespContent := .absent
  reasoning : String := ""
  reasoningContent : String := ""
  thinkingField : Option ThinkingField := none
  toolCalls : List ToolCall := []
deriving Repr, DecidableEq

/-- `openaicompat.ChatChoice` from `types.go`. -/
structure RespChoice where
  message : RespMessage := {}
  finishReason : String := ""
deriving Repr, DecidableEq

/-- `openaicompat.ChatResponse` from `types.go`. -/
structure ChatResponse where
  id : String := ""
  choices : List RespChoice := []
  usage : Option Usage := none
deriving Repr, DecidableEq

/-- `tool_use.input` of a reconstructed Claude block: either the empty
object (arguments empty or unmarshal yielded nil) or the parsed value of
the raw arguments string. -/
inductive ToolInput
  | emptyObject
  | value (raw : String)
deriving Repr, DecidableEq

/-- Claude content block of a non-streaming response
(`antigravity.ClaudeContentItem`); modelled from the spec §3. -/
inductive ClaudeContentItem
  | thinking (text : String) (signature : String)
  | text (t : String)
  | toolUse (id : String) (name : String) (input : ToolInput)
deriving Repr, DecidableEq

/-- Claude non-streaming response (`antigravity.ClaudeResponse`); modelled
from the spec §3.  The constant fields `type="message"` and
`role="assistant"` are omitted. -/
structure ClaudeResponse where
  id : String
  model : String
  content : List ClaudeContentItem
  stopReason : String
  usage : ClaudeUsage
deriving Repr, DecidableEq

/-- `TransformOpenAIToClaude` from `response_transformer.go`.
`argsNonNull s` stands for "`json.Unmarshal([]byte(s), &input)` leaves
`input` non-nil"; `now` is the Unix-millisecond clock and `r` the random
draws for `randomID`. -/
def TransformOpenAIToClaude (argsNonNull : String → Bool) (resp : ChatResponse)
    (originalModel : String) (now : Nat) (r : Fin 12 → Fin 62) :
    ClaudeResponse × ClaudeUsage :=
  let built : List ClaudeContentItem × Bool :=
    match resp.choices with
    | [] => ([], false)
    | choice :: _ =>
      let msg := choice.message
      -- reasoning: msg.Reasoning, else msg.ReasoningContent; a non-empty
      -- msg.Thinking.Content overrides both and supplies the signature.
      let reasoning0 := if msg.reasoning != "" then msg.reasoning else msg.reasoningContent
      let picked : String × String :=
        match msg.thinkingField with
        | some tf => if tf.content != "" then (tf.content, tf.signature) else (reasoning0, "")
        | none => (reasoning0, "")
      let reasoning := picked.1
      let c1 : List ClaudeContentItem :=
        if reasoning != "" then
          let sig := if picked.2 == "" then generateFakeSignature now else picked.2
          [ClaudeContentItem.thinking reasoning sig]
        else []
      let textContent :=
        match msg.content with
        | RespContent.str s => s
        | _ => ""
      let c2 := if textContent != "" then c1 ++ [ClaudeContentItem.text textContent] else c1
      let c3 := c2 ++ msg.toolCalls.map (fun tc =>
        let input :=
          if tc.function.arguments != "" && argsNonNull tc.function.arguments then
            ToolInput.value tc.function.arguments
          else ToolInput.emptyObject
        ClaudeContentItem.toolUse tc.id tc.function.name input)
      (c3, !msg.toolCalls.isEmpty)
  let content := if built.1.isEmpty then [ClaudeContentItem.text ""] else built.1
  let stopReason :=
    match resp.choices with
    | [] => "end_turn"
    | choice :: _ => mapFinishReason choice.finishReason built.2
  let usage := extractUsage resp.usage
  ({ id := convertID resp.id r
     model := originalModel
     content := content
     stopReason := stopReason
     usage := usage }, usage)

/-- JSON value of the `code` field of an upstream error detail, as seen by
Go's `encoding/json` decoding into `any`: numbers arrive as `float64`
(restricted here to integral values), strings as `string`; anything else
(booleans, objects, arrays) is grouped as `otherVal`. -/
inductive CodeVal
  | num (n : Int)
  | str (s : String)
  | otherVal
deriving Repr, DecidableEq

/-- `openaicompat.ErrorDetail` from `types.go`; `code = none` models an
absent field (`nil`). -/
structure OErrorDetail where
  message : String := ""
  errType : String := ""
  code : Option CodeVal := none
deriving Repr, DecidableEq

/-- `openaicompat.ErrorResponse` from `types.go`. -/
structure OErrorResponse where
  error : Option OErrorDetail := none
deriving Repr, DecidableEq

/-- `mapErrorType` from `response_transformer.go`. -/
def mapErrorType (statusCode : Int) : String :=
  if statusCode == 400 then "invalid_request_error"
  else if statusCode == 401 then "authentication_error"
  else if statusCode == 403 then "permission_error"
  else if statusCode == 404 then "not_found_error"
  else if statusCode == 429 then "rate_limit_error"
  else if statusCode >= 500 then "api_error"
  else "api_error"

/-- Body written to the client for an upstream error: the original bytes
when the envelope does not parse, else the rebuilt Claude error JSON. -/
inductive ErrorBody
  | raw (body : String)
  | claude (errType : String) (message : String)
deriving Repr, DecidableEq

/-- `TransformOpenAIErrorToClaude` from `response_transformer.go`;
`parsed` is the `json.Unmarshal` outcome on `body` (`none` = parse
failure). -/
def TransformOpenAIErrorToClaude (parsed : Option OErrorResponse)
    (body : String) (statusCode : Int) : ErrorBody :=
  match parsed with
  | none => .raw body
  | some er =>
    match er.error with
    | none => .raw body
    | some d => .claude (mapErrorType statusCode) d.message

/-- Outcome of `Forward`'s status dispatch
(`openai_compat_gateway_service.go`): a failover signal
(`UpstreamFailoverError`, nothing written to the client), an error reply
written to the client, or continuation into the success path. -/
inductive ForwardOutcome
  | failover (statusCode : Int) (responseBody : String)
  | clientError (statusCode : Int) (body : ErrorBody)
  | upstreamSuccess
deriving Repr, DecidableEq

/-- Whether an outcome writes anything to the client before returning. -/
def writesToClient : ForwardOutcome → Bool
  | .failover _ _ => false
  | .clientError _ _ => true
  | .upstreamSuccess => true

/-- The status dispatch of `Forward` (`openai_compat_gateway_service.go`
lines 102–158): `statusCode` is the upstream HTTP status, `respBody` the
(2 MiB-limited) body bytes, `parsedErr` the `json.Unmarshal` outcome of
the body as an error envelope, and `isStream` the client's streaming
flag.  The success continuation (response transform or stream transduction)
is collapsed into `upstreamSuccess`. -/
def forwardStatusDispatch (statusCode : Int) (respBody : String)
    (parsedErr : Option OErrorResponse) (isStream : Bool) : ForwardOutcome :=
  if statusCode >= 400 then
    if statusCode == 429 then .failover statusCode respBody
    else .clientError statusCode (TransformOpenAIErrorToClaude parsedErr respBody statusCode)
  else if isStream then .upstreamSuccess
  else
    match parsedErr with
    | some er =>
      match er.error with
      | some d =>
        let status : Int :=
          match d.code with
          | some (.num n) => n
          | _ => 502
        if status == 429 then .failover status respBody
        else .clientError status (TransformOpenAIErrorToClaude parsedErr respBody status)
      | none => .upstreamSuccess
    | none => .upstreamSuccess

/-- The model-mapping step of `Forward`
(`openai_compat_gateway_service.go` lines 62–69): `mapped` is the result
of `account.GetMappedModel(clientModel)` (empty when no mapping applies).
Returns the model sent upstream (also used for billing) and the original
model retained for response echoing. -/
def forwardModelSelection (clientModel mapped : String) : String × String :=
  if mapped != "" && mapped != clientModel then (mapped, clientModel)
  else (clientModel, clientModel)

/-- `source` of an `image` content block (`antigravity` wire type);
modelled from the spec §3. -/
structure ImageSource where
  type : String := ""
  mediaType : String := ""
  data : String := ""
deriving Repr, DecidableEq

/-- Parse outcomes of a `tool_result.content` raw field, as probed by
`extractToolResultText`: empty bytes, a JSON string, an array of JSON
objects (each item reduced to its `"text"` field when that field is a
string), or anything else.  `raw` keeps the original bytes for the
fall-through return. -/
inductive TRContent
  | empty
  | str (s : String)
  | arr (items : List (Option String)) (raw : String)
  | nonParse (raw : String)
deriving Repr, DecidableEq

/-- Claude request content block (`antigravity.ContentBlock`); modelled
from the spec §3.  `inputJSON` stands for the `json.Marshal` result of the
`tool_use` input value (`"{}"` when marshalling fails, matching the code's
fallback). -/
structure ContentBlock where
  type : String := ""
  text : String := ""
  source : Option ImageSource := none
  thinking : String := ""
  signature : String := ""
  id : String := ""
  name : String := ""
  inputJSON : String := "{}"
  toolUseID : String := ""
  content : TRContent := .empty
  isError : Bool := false
deriving Repr, DecidableEq

/-- `extractToolResultText` from `request_transformer.go`. -/
def extractToolResultText (block : ContentBlock) : String :=
  match block.content with
  | .empty =>
    if block.isError then "Tool execution failed." else "Command executed successfully."
  | .str s =>
    if trimSpace s == "" then
      if block.isError then "Tool execution failed." else "Command executed successfully."
    else s
  | .arr items raw =>
    let texts := items.foldl (fun acc item =>
      match item with
      | some text => acc ++ [text]
      | none => acc) []
    let result := joinWith "\n" texts
    if trimSpace result != "" then result else raw
  | .nonParse raw => raw

/-- Parse outcomes of a Claude message `content` raw field, as probed by
`convertMessage`: a JSON string, a content-block array, or neither
(`raw` keeps the bytes for pass-through). -/
inductive ClaudeContent
  | str (s : String)
  | blocks (bs : List ContentBlock)
  | raw (bytes : String)
deriving Repr, DecidableEq

/-- `antigravity.ClaudeMessage`; modelled from the spec §3. -/
structure ClaudeMessage where
  role : String
  content : ClaudeContent
deriving Repr, DecidableEq

/-- `openaicompat.ContentPart` from `types.go`; `imageURL` is the
`image_url.url` string when present. -/
structure ContentPart where
  type : String
  text : String := ""
  imageURL : Option String := none
deriving Repr, DecidableEq

/-- Content slot of an outgoing Chat-Completions message: absent, a JSON
string, a parts array, or raw bytes passed through unchanged. -/
inductive ChatContent
  | absent
  | str (s : String)
  | parts (ps : List ContentPart)
  | raw (bytes : String)
deriving Repr, DecidableEq

/-- The fields of `openaicompat.ChatMessage` that the request transformer
writes. -/
structure ChatMessage where
  role : String
  content : ChatContent := .absent
  toolCallID : String := ""
  toolCalls : List ToolCall := []
  thinkingField : Option ThinkingField := none
deriving Repr, DecidableEq

/-- The block walk of `convertUserBlocks` (`request_transformer.go`):
`parts` is the accumulated parts buffer. -/
def convertUserBlocksAux (role : String) (blocks : List ContentBlock)
    (parts : List ContentPart) : List ChatMessage :=
  match blocks with
  | [] =>
    if parts.isEmpty then []
    else
      match parts with
      | [p] =>
        if p.type == "text" then [{ role := role, content := .str p.text }]
        else [{ role := role, content := .parts parts }]
      | _ => [{ role := role, content := .parts parts }]
  | b :: rest =>
    if b.type == "text" then
      convertUserBlocksAux role rest (parts ++ [{ type := "text", text := b.text }])
    else if b.type == "image" then
      match b.source with
      | some src =>
        if src.type == "base64" then
          let dataURL := "data:" ++ src.mediaType ++ ";base64," ++ src.data
          convertUserBlocksAux role rest (parts ++ [{ type := "image_url", imageURL := some dataURL }])
        else convertUserBlocksAux role rest parts
      | none => convertUserBlocksAux role rest parts
    else if b.type == "tool_result" then
      let flushed : List ChatMessage :=
        if parts.isEmpty then [] else [{ role := role, content := .parts parts }]
      let resultText := extractToolResultText b
      flushed ++ [{ role := "tool", content := .str resultText, toolCallID := b.toolUseID }]
        ++ convertUserBlocksAux role rest []
    else
      -- "thinking" blocks and unknown types are skipped
      convertUserBlocksAux role rest parts

/-- `convertUserBlocks` from `request_transformer.go` (always returns a
nil error in the source). -/
def convertUserBlocks (role : String) (blocks : List ContentBlock) :
    Except String (List ChatMessage) :=
  .ok (convertUserBlocksAux role blocks [])

/-- The accumulation pass of `convertAssistantBlocks`: text parts, tool
calls, thinking parts and the last non-empty signature, in block order. -/
def convertAssistantBlocksAux (blocks : List ContentBlock)
    (textParts : List String) (toolCalls : List ToolCall)
    (thinkingParts : List String) (lastSignature : String) :
    List String × List ToolCall × List String × String :=
  match blocks with
  | [] => (textParts, toolCalls, thinkingParts, lastSignature)
  | b :: rest =>
    if b.type == "text" then
      convertAssistantBlocksAux rest (textParts ++ [b.text]) toolCalls thinkingParts lastSignature
    else if b.type == "tool_use" then
      let tc : ToolCall :=
        { id := b.id, type := "function"
          function := { name := b.name, arguments := b.inputJSON } }
      convertAssistantBlocksAux rest textParts (toolCalls ++ [tc]) thinkingParts lastSignature
    else if b.type == "thinking" then
      let thinkingParts := if b.thinking != "" then thinkingParts ++ [b.thinking] else thinkingParts
      let lastSignature := if b.signature != "" then b.signature else lastSignature
      convertAssistantBlocksAux rest textParts toolCalls thinkingParts lastSignature
    else
      convertAssistantBlocksAux rest textParts toolCalls thinkingParts lastSignature

/-- `convertAssistantBlocks` from `request_transformer.go` (always returns
a nil error in the source). -/
def convertAssistantBlocks (blocks : List ContentBlock) :
    Except String (List ChatMessage) :=
  let acc := convertAssistantBlocksAux blocks [] [] [] ""
  let textParts := acc.1
  let toolCalls := acc.2.1
  let thinkingParts := acc.2.2.1
  let lastSignature := acc.2.2.2
  let msg : ChatMessage := { role := "assistant" }
  let tf : ThinkingField :=
    { content := joinWith "\n" thinkingParts, signature := lastSignature }
  let msg :=
    if !thinkingParts.isEmpty then { msg with thinkingField := some tf }
    else msg
  let msg :=
    if !textParts.isEmpty then
      { msg with content := .str (joinWith "" textParts) }
    else msg
  let msg := if !toolCalls.isEmpty then { msg with toolCalls := toolCalls } else msg
  .ok [msg]

/-- `convertMessage` from `request_transformer.go`: string content is
re-emitted with the same role; a block array is dispatched by role; content
that parses as neither is passed through unchanged. -/
def convertMessage (msg : ClaudeMessage) : Except String (List ChatMessage) :=
  match msg.content with
  | .str s => .ok [{ role := msg.role, content := .str s }]
  | .blocks bs =>
    if msg.role == "assistant" then convertAssistantBlocks bs
    else convertUserBlocks msg.role bs
  | .raw bytes => .ok [{ role := msg.role, content := .raw bytes }]

/-- `openaicompat.StreamChunkDelta` from `types.go`. -/
structure StreamChunkDelta where
  role : String := ""
  content : String := ""
  thinking : Option ThinkingField := none
  reasoningContent : String := ""
  reasoning : String := ""
  toolCalls : List ToolCall := []
deriving Repr, DecidableEq

/-- `openaicompat.StreamChunkChoice` from `types.go`. -/
structure StreamChunkChoice where
  index : Int := 0
  delta : StreamChunkDelta := {}
  finishReason : Option String := none
deriving Repr, DecidableEq

/-- `openaicompat.StreamChunk` from `types.go`. -/
structure StreamChunk where
  id : String := ""
  choices : List StreamChunkChoice := []
  usage : Option Usage := none
deriving Repr, DecidableEq

/-- Sub-type of a `content_block_delta` payload. -/
inductive Delta
  | textDelta (text : String)
  | thinkingDelta (thinking : String)
  | signatureDelta (signature : String)
  | inputJsonDelta (partialJson : String)
deriving Repr, DecidableEq

/-- The `content_block` announced on a `content_block_start` (initial text
and the empty `input` object are the constants the code always emits). -/
inductive BlockInfo
  | text
  | thinking
  | toolUse (id : String) (name : String)
deriving Repr, DecidableEq

/-- A Claude SSE event as emitted by the streaming processor, carrying the
payload fields that `formatSSE` serializes.  `messageStart` records the
message id, the echoed model and the `input_tokens` of the embedded usage
(`output_tokens` is always 0 there); `messageDelta` records the
`stop_reason` and the `output_tokens` of its usage. -/
inductive Event
  | messageStart (id : String) (model : String) (inputTokens : Int)
  | blockStart (index : Nat) (block : BlockInfo)
  | blockDelta (index : Nat) (delta : Delta)
  | blockStop (index : Nat)
  | messageDelta (stopReason : String) (outputTokens : Int)
  | messageStop
deriving Repr, DecidableEq

/-- `openaicompat.toolCallState` from `request_transformer.go`
(`Arguments` is the accumulated builder content). -/
structure ToolCallState where
  id : String := ""
  name : String := ""
  arguments : String := ""
  started : Bool := false
deriving Repr, DecidableEq

/-- `openaicompat.StreamingProcessor` state from `request_transformer.go`;
the Go `map[int]*toolCallState` is modelled as an association list. -/
structure StreamingProcessor where
  originalModel : String
  messageStartSent : Bool := false
  messageStopSent : Bool := false
  blockIndex : Nat := 0
  blockOpen : Bool := false
  blockType : String := ""
  usedTool : Bool := false
  thinkingStarted : Bool := false
  thinkingGotSig : Bool := false
  activeToolCalls : List (Int × ToolCallState) := []
  usage : ClaudeUsage := {}
deriving Repr, DecidableEq

/-- `NewStreamingProcessor` from `request_transformer.go`. -/
def NewStreamingProcessor (originalModel : String) : StreamingProcessor :=
  { originalModel := originalModel }

/-- Lookup in the `activeToolCalls` map. -/
def findTC (m : List (Int × ToolCallState)) (i : Int) : Option ToolCallState :=
  match m with
  | [] => none
  | (j, st) :: rest => if j == i then some st else findTC rest i

/-- Insert-or-replace in the `activeToolCalls` map. -/
def setTC (m : List (Int × ToolCallState)) (i : Int) (st : ToolCallState) :
    List (Int × ToolCallState) :=
  match m with
  | [] => [(i, st)]
  | (j, s) :: rest => if j == i then (i, st) :: rest else (j, s) :: setTC rest i st

/-- Per-line external inputs of the streaming processor: the
Unix-millisecond clock and the `randomID` draw used if a `message_start`
id has to be synthesized while processing this line. -/
structure LineEnv where
  now : Nat := 0
  rnd : String := ""
deriving Repr, DecidableEq

/-- `emitMessageStart` from `request_transformer.go`. -/
def emitMessageStart (env : LineEnv) (p : StreamingProcessor) (responseID : String) :
    StreamingProcessor × List Event :=
  if p.messageStartSent then (p, [])
  else
    let rid := if responseID == "" then "msg_" ++ env.rnd else responseID
    ({ p with messageStartSent := true },
     [Event.messageStart rid p.originalModel p.usage.inputTokens])

/-- `openBlock` from `request_transformer.go`. -/
def openBlock (p : StreamingProcessor) (blockType : String) (contentBlock : BlockInfo) :
    StreamingProcessor × List Event :=
  if p.blockOpen then (p, [])
  else
    ({ p with blockOpen := true, blockType := blockType },
     [Event.blockStart p.blockIndex contentBlock])

/-- `closeBlock` from `request_transformer.go`. -/
def closeBlock (p : StreamingProcessor) : StreamingProcessor × List Event :=
  if !p.blockOpen then (p, [])
  else
    ({ p with blockOpen := false, blockIndex := p.blockIndex + 1, blockType := "" },
     [Event.blockStop p.blockIndex])

/-- `closeThinkingWithFakeSignature` from `request_transformer.go`. -/
def closeThinkingWithFakeSignature (env : LineEnv) (p : StreamingProcessor) :
    StreamingProcessor × List Event :=
  if !p.blockOpen || p.blockType != "thinking" then (p, [])
  else if p.thinkingGotSig then closeBlock p
  else
    let fakeSig := toString env.now
    let e1 := Event.blockDelta p.blockIndex (Delta.signatureDelta fakeSig)
    let c := closeBlock p
    (c.1, e1 :: c.2)

/-- `processTextDelta` from `request_transformer.go`. -/
def processTextDelta (env : LineEnv) (p : StreamingProcessor) (text : String) :
    StreamingProcessor × List Event :=
  let s1 :=
    if p.blockOpen && p.blockType != "text" then
      if p.blockType == "thinking" then closeThinkingWithFakeSignature env p
      else closeBlock p
    else (p, [])
  let s2 := if !s1.1.blockOpen then openBlock s1.1 "text" BlockInfo.text else (s1.1, [])
  (s2.1, s1.2 ++ s2.2 ++ [Event.blockDelta s2.1.blockIndex (Delta.textDelta text)])

/-- `processThinkingDelta` from `request_transformer.go`. -/
def processThinkingDelta (p : StreamingProcessor) (text : String) :
    StreamingProcessor × List Event :=
  let s1 :=
    if p.blockOpen && p.blockType != "thinking" then closeBlock p
    else (p, [])
  let s2 :=
    if !s1.1.blockOpen then
      let o := openBlock s1.1 "thinking" BlockInfo.thinking
      ({ o.1 with thinkingStarted := true }, o.2)
    else (s1.1, [])
  (s2.1, s1.2 ++ s2.2 ++ [Event.blockDelta s2.1.blockIndex (Delta.thinkingDelta text)])

/-- `processSignatureDelta` from `request_transformer.go`. -/
def processSignatureDelta (p : StreamingProcessor) (signature : String) :
    StreamingProcessor × List Event :=
  if !p.blockOpen || p.blockType != "thinking" then (p, [])
  else
    let p := { p with thinkingGotSig := true }
    let e1 := Event.blockDelta p.blockIndex (Delta.signatureDelta signature)
    let c := closeBlock p
    (c.1, e1 :: c.2)

/-- The block-creation step of `processToolCallDelta`: when the streaming
index is new, close any open block (injecting a fake signature into an
unsigned thinking block) and open the `tool_use` block; the source sets
`state.Started = true` immediately after emitting `content_block_start`,
so the single map insertion here records that final state. -/
def toolCallCreate (env : LineEnv) (p : StreamingProcessor) (tc : ToolCall) :
    StreamingProcessor × List Event :=
  let idx := tc.index
  let existing := findTC p.activeToolCalls idx
  if tc.id != "" && existing.isNone then
    let c :=
      if p.blockOpen && p.blockType == "thinking" then closeThinkingWithFakeSignature env p
      else if p.blockOpen then closeBlock p
      else (p, [])
    let toolID :=
      if tc.id == "" then "call_" ++ toString env.now ++ "_" ++ toString idx else tc.id
    let toolName :=
      if tc.function.name == "" then "tool_" ++ toString idx else tc.function.name
    let st : ToolCallState := { id := toolID, name := toolName, arguments := "", started := true }
    let pc := { c.1 with activeToolCalls := setTC c.1.activeToolCalls idx st }
    let o := openBlock pc "tool_use" (BlockInfo.toolUse toolID toolName)
    (o.1, c.2 ++ o.2)
  else if existing.isNone then
    -- arguments arrived for an unknown index: create a fallback state
    let c :=
      if p.blockOpen && p.blockType == "thinking" then closeThinkingWithFakeSignature env p
      else if p.blockOpen then closeBlock p
      else (p, [])
    let toolID := "call_" ++ toString env.now ++ "_" ++ toString idx
    let toolName :=
      if tc.function.name == "" then "tool_" ++ toString idx else tc.function.name
    let st : ToolCallState := { id := toolID, name := toolName, arguments := "", started := true }
    let pc := { c.1 with activeToolCalls := setTC c.1.activeToolCalls idx st }
    let o := openBlock pc "tool_use" (BlockInfo.toolUse toolID toolName)
    (o.1, c.2 ++ o.2)
  else (p, [])

/-- `processToolCallDelta` from `request_transformer.go`: mark tool use,
create the assembler/block for a new index, then append a non-empty
`arguments` chunk to the assembler and emit it as an `input_json_delta`. -/
def processToolCallDelta (env : LineEnv) (p0 : StreamingProcessor) (tc : ToolCall) :
    StreamingProcessor × List Event :=
  let p := { p0 with usedTool := true }
  let idx := tc.index
  let s1 := toolCallCreate env p tc
  if tc.function.arguments != "" then
    match findTC s1.1.activeToolCalls idx with
    | some st =>
      let st2 := { st with arguments := st.arguments ++ tc.function.arguments }
      ({ s1.1 with activeToolCalls := setTC s1.1.activeToolCalls idx st2 },
       s1.2 ++ [Event.blockDelta s1.1.blockIndex (Delta.inputJsonDelta tc.function.arguments)])
    | none => s1
  else s1

/-- `emitFinish` from `request_transformer.go`. -/
def emitFinish (env : LineEnv) (p : StreamingProcessor) (finishReason : String) :
    StreamingProcessor × List Event :=
  if p.messageStopSent then (p, [])
  else
    let s1 :=
      if p.blockOpen then
        if p.blockType == "thinking" then closeThinkingWithFakeSignature env p
        else closeBlock p
      else (p, [])
    let stopReason :=
      if s1.1.usedTool then "tool_use"
      else
        match finishReason with
        | "stop" => "end_turn"
        | "tool_calls" => "tool_use"
        | "length" => "max_tokens"
        | _ => "end_turn"
    ({ s1.1 with messageStopSent := true },
     s1.2 ++ [Event.messageDelta stopReason s1.1.usage.outputTokens, Event.messageStop])

/-- `finishIfNeeded` from `request_transformer.go`. -/
def finishIfNeeded (env : LineEnv) (p : StreamingProcessor) :
    StreamingProcessor × List Event :=
  if p.messageStopSent then (p, [])
  else if !p.messageStartSent then (p, [])
  else emitFinish env p "stop"

/-- The usage update of `ProcessLine` (`request_transformer.go` lines
448–459): a chunk carrying usage overwrites the accumulated usage. -/
def applyUsage (p : StreamingProcessor) (u : Option Usage) : StreamingProcessor :=
  match u with
  | none => p
  | some u =>
    let cachedTokens : Int :=
      match u.promptTokensDetails with
      | some d => d.cachedTokens
      | none => 0
    let inputTokens := u.promptTokens - cachedTokens
    let inputTokens := if inputTokens < 0 then 0 else inputTokens
    { p with usage :=
      { inputTokens := inputTokens
        outputTokens := u.completionTokens
        cacheReadInputTokens := cachedTokens } }

/-- The tool-call loop of `ProcessLine` over one delta's `tool_calls`. -/
def processToolCallList (env : LineEnv) (p : StreamingProcessor) (tcs : List ToolCall) :
    StreamingProcessor × List Event :=
  match tcs with
  | [] => (p, [])
  | tc :: rest =>
    let s1 := processToolCallDelta env p tc
    let s2 := processToolCallList env s1.1 rest
    (s2.1, s1.2 ++ s2.2)

/-- The `delta.Thinking` handling of `ProcessLine`: a non-empty content
yields a thinking delta, then a non-empty signature a signature delta. -/
def choiceThinkingStep (p : StreamingProcessor) (delta : StreamChunkDelta) :
    StreamingProcessor × List Event :=
  match delta.thinking with
  | some td =>
    let a := if td.content != "" then processThinkingDelta p td.content else (p, [])
    let b := if td.signature != "" then processSignatureDelta a.1 td.signature else (a.1, [])
    (b.1, a.2 ++ b.2)
  | none => (p, [])

/-- The `reasoning_content`/`reasoning` handling of `ProcessLine`. -/
def choiceReasoningStep (p : StreamingProcessor) (delta : StreamChunkDelta) :
    StreamingProcessor × List Event :=
  if delta.reasoningContent != "" then processThinkingDelta p delta.reasoningContent
  else if delta.reasoning != "" then processThinkingDelta p delta.reasoning
  else (p, [])

/-- The `content` handling of `ProcessLine`. -/
def choiceTextStep (env : LineEnv) (p : StreamingProcessor) (delta : StreamChunkDelta) :
    StreamingProcessor × List Event :=
  if delta.content != "" then processTextDelta env p delta.content else (p, [])

/-- The `tool_calls` loop guard of `ProcessLine`. -/
def choiceToolStep (env : LineEnv) (p : StreamingProcessor) (delta : StreamChunkDelta) :
    StreamingProcessor × List Event :=
  if !delta.toolCalls.isEmpty then processToolCallList env p delta.toolCalls
  else (p, [])

/-- The `finish_reason` handling of `ProcessLine`. -/
def choiceFinishStep (env : LineEnv) (p : StreamingProcessor) (choice : StreamChunkChoice) :
    StreamingProcessor × List Event :=
  match choice.finishReason with
  | some fr => if fr != "" then emitFinish env p fr else (p, [])
  | none => (p, [])

/-- The per-choice delta processing of `ProcessLine`: thinking object,
then `reasoning_content`/`reasoning`, then `content`, then `tool_calls`,
then `finish_reason`. -/
def processChoice (env : LineEnv) (p : StreamingProcessor) (choice : StreamChunkChoice) :
    StreamingProcessor × List Event :=
  let s1 := choiceThinkingStep p choice.delta
  let s2 := choiceReasoningStep s1.1 choice.delta
  let s3 := choiceTextStep env s2.1 choice.delta
  let s4 := choiceToolStep env s3.1 choice.delta
  let s5 := choiceFinishStep env s4.1 choice
  (s5.1, s1.2 ++ s2.2 ++ s3.2 ++ s4.2 ++ s5.2)

/-- The choice loop of `ProcessLine`. -/
def processChoiceList (env : LineEnv) (p : StreamingProcessor)
    (cs : List StreamChunkChoice) : StreamingProcessor × List Event :=
  match cs with
  | [] => (p, [])
  | c :: rest =>
    let s1 := processChoice env p c
    let s2 := processChoiceList env s1.1 rest
    (s2.1, s1.2 ++ s2.2)

/-- Processing of a successfully decoded chunk (`ProcessLine` after
`json.Unmarshal`): `message_start` on first contact, usage update, then
the choice loop. -/
def processChunk (env : LineEnv) (p : StreamingProcessor) (chunk : StreamChunk) :
    StreamingProcessor × List Event :=
  let s0 := if !p.messageStartSent then emitMessageStart env p chunk.id else (p, [])
  let p1 := applyUsage s0.1 chunk.usage
  let s2 := processChoiceList env p1 chunk.choices
  (s2.1, s0.2 ++ s2.2)

/-- What `ProcessLine` decides to do with a raw line before any JSON
decoding: drop it, run the terminal flush, or decode the payload. -/
inductive LineAction
  | drop
  | finishLine
  | payload (data : String)
deriving Repr, DecidableEq

/-- The line classification of `ProcessLine` (`request_transformer.go`
lines 413–432): trim, drop empties and non-`data:` lines, recognize the
`[DONE]` sentinel and empty payloads. -/
def classifyLine (line : String) : LineAction :=
  let l := trimSpace line
  if l == "" then .drop
  else if l == "data: [DONE]" || l == "data:[DONE]" then .finishLine
  else if !strHasDataPre l "data:" then .drop
  else
    let data := trimSpace (String.mk (l.data.drop 5))
    if data == "" || data == "[DONE]" then .finishLine
    else .payload data

/-- `ProcessLine` from `request_transformer.go`; `decode` is
`json.Unmarshal` into a `StreamChunk` (`none` = parse failure, which
silently discards the line). -/
def ProcessLine (decode : String → Option StreamChunk) (env : LineEnv)
    (p : StreamingProcessor) (line : String) : StreamingProcessor × List Event :=
  match classifyLine line with
  | .drop => (p, [])
  | .finishLine => finishIfNeeded env p
  | .payload data =>
    match decode data with
    | none => (p, [])
    | some chunk => processChunk env p chunk

/-- `Finish` from `request_transformer.go` (terminal flush at upstream
end-of-stream); the accumulated usage is read off the returned state. -/
def Finish (env : LineEnv) (p : StreamingProcessor) : StreamingProcessor × List Event :=
  if !p.messageStopSent then emitFinish env p "stop" else (p, [])

/-- Feeding a sequence of lines (each with its own clock/randomness) to
the processor, concatenating the emitted events. -/
def runLines (decode : String → Option StreamChunk) (p : StreamingProcessor)
    (ls : List (LineEnv × String)) : StreamingProcessor × List Event :=
  match ls with
  | [] => (p, [])
  | (env, line) :: rest =>
    let s1 := ProcessLine decode env p line
    let s2 := runLines decode s1.1 rest
    (s2.1, s1.2 ++ s2.2)

/-! ## Derived observations used by the claims -/

/-- Concatenation of a list of strings (in order). -/
def concatAll (l : List String) : String := l.foldr (· ++ ·) ""

/-- The `partial_json` payloads of the `input_json_delta` events of a
trace, in order. -/
def jsonPayloads (es : List Event) : List String :=
  es.filterMap fun e =>
    match e with
    | Event.blockDelta _ (Delta.inputJsonDelta j) => some j
    | _ => none

/-- The non-empty `arguments` chunks carried by tool-call deltas with
streaming index `i`, in order. -/
def argsOfToolCalls (i : Int) (tcs : List ToolCall) : List String :=
  tcs.filterMap fun tc =>
    if tc.index == i && tc.function.arguments != "" then some tc.function.arguments else none

/-- All non-empty `arguments` chunks of a delta's tool calls (any index),
in order. -/
def allArgsOfToolCalls (tcs : List ToolCall) : List String :=
  tcs.filterMap fun tc =>
    if tc.function.arguments != "" then some tc.function.arguments else none

/-- Non-empty `arguments` chunks with index `i` across a chunk's choices. -/
def argsOfChunk (i : Int) (chunk : StreamChunk) : List String :=
  (chunk.choices.map fun c => argsOfToolCalls i c.delta.toolCalls).flatten

/-- All non-empty `arguments` chunks across a chunk's choices. -/
def allArgsOfChunk (chunk : StreamChunk) : List String :=
  (chunk.choices.map fun c => allArgsOfToolCalls c.delta.toolCalls).flatten

/-- Non-empty `arguments` chunks with index `i` carried by one input line
(empty for dropped lines, sentinels and undecodable payloads). -/
def argsOfLine (decode : String → Option StreamChunk) (i : Int)
    (l : LineEnv × String) : List String :=
  match classifyLine l.2 with
  | .payload d =>
    match decode d with
    | some chunk => argsOfChunk i chunk
    | none => []
  | _ => []

/-- All non-empty `arguments` chunks carried by one input line. -/
def allArgsOfLine (decode : String → Option StreamChunk) (l : LineEnv × String) : List String :=
  match classifyLine l.2 with
  | .payload d =>
    match decode d with
    | some chunk => allArgsOfChunk chunk
    | none => []
  | _ => []

/-- Non-empty `arguments` chunks with index `i` over a line sequence. -/
def argsOfLines (decode : String → Option StreamChunk) (i : Int)
    (ls : List (LineEnv × String)) : List String :=
  (ls.map (argsOfLine decode i)).flatten

/-- All non-empty `arguments` chunks over a line sequence. -/
def allArgsOfLines (decode : String → Option StreamChunk)
    (ls : List (LineEnv × String)) : List String :=
  (ls.map (allArgsOfLine decode)).flatten

/-- Accumulated `arguments` of the assembler for streaming index `i`
(empty when the index was never seen). -/
def tcArgs (p : StreamingProcessor) (i : Int) : String :=
  match findTC p.activeToolCalls i with
  | some st => st.arguments
  | none => ""

/-- Number of `signature_delta` events carrying block index `idx`. -/
def signatureDeltaCount (idx : Nat) (es : List Event) : Nat :=
  (es.filter fun e =>
    match e with
    | Event.blockDelta i (Delta.signatureDelta _) => i == idx
    | _ => false).length

/-! ## C2: usage derivation -/

/-- An upstream usage object with the given numbers and cached-token
details present. -/
def mkUsage (p comp t cached : Int) : Usage :=
  { promptTokens := p
    completionTokens := comp
    totalTokens := t
    promptTokensDetails := some { cachedTokens := cached } }

/-- An upstream usage object with `prompt_tokens_details` absent. -/
def mkUsageNoDetails (p comp t : Int) : Usage :=
  { promptTokens := p
    completionTokens := comp
    totalTokens := t
    promptTokensDetails := none }

/-- The Claude usage triple a given derivation should produce. -/
def mkClaudeUsage (i o c : Int) : ClaudeUsage :=
  { inputTokens := i
    outputTokens := o
    cacheReadInputTokens := c }

theorem ite_neg_clamp (x : Int) : (if x < 0 then (0 : Int) else x) = max 0 x := by
  rcases le_or_lt 0 x with h | h
  · rw [if_neg (not_lt.2 h), max_eq_right h]
  · rw [if_pos h, max_eq_left h.le]

/-- C2: for non-negative `prompt_tokens`, `completion_tokens` and
`cached_tokens`, both the non-streaming `extractUsage` and the streaming
usage update produce `input_tokens = max 0 (prompt − cached)`,
`cache_read_input_tokens = cached`, `output_tokens = completion`; absent
`prompt_tokens_details` counts as `cached = 0`, an absent usage object
yields the zero usage (non-streaming) and leaves the accumulated usage
untouched (streaming). -/
theorem usage_derivation (st : StreamingProcessor) (p comp t cached : Int)
    (_hp : 0 ≤ p) (_hc : 0 ≤ comp) (_hk : 0 ≤ cached) :
    extractUsage (some (mkUsage p comp t cached)) =
      mkClaudeUsage (max 0 (p - cached)) comp cached ∧
    (applyUsage st (some (mkUsage p comp t cached))).usage =
      mkClaudeUsage (max 0 (p - cached)) comp cached ∧
    extractUsage (some (mkUsageNoDetails p comp t)) =
      mkClaudeUsage (max 0 (p - 0)) comp 0 ∧
    (applyUsage st (some (mkUsageNoDetails p comp t))).usage =
      mkClaudeUsage (max 0 (p - 0)) comp 0 ∧
    extractUsage none = mkClaudeUsage 0 0 0 ∧
    applyUsage st none = st := by
  refine ⟨?_, ?_, ?_, ?_, rfl, rfl⟩ <;>
    simp [extractUsage, applyUsage, mkUsage, mkUsageNoDetails, mkClaudeUsage, ite_neg_clamp] <;>
    (split <;> omega)

/-- Witness for `usage_derivation` at the spec's scenario-1 numbers
(`prompt=5`, `completion=2`, `cached=1`). -/
theorem usage_derivation_witness :
    (0 : Int) ≤ 5 ∧ (0 : Int) ≤ 2 ∧ (0 : Int) ≤ 1 ∧
    (extractUsage (some (mkUsage 5 2 7 1)) = mkClaudeUsage (max 0 (5 - 1)) 2 1 ∧
     (applyUsage (NewStreamingProcessor "m") (some (mkUsage 5 2 7 1))).usage =
       mkClaudeUsage (max 0 (5 - 1)) 2 1 ∧
     extractUsage (some (mkUsageNoDetails 5 2 7)) = mkClaudeUsage (max 0 (5 - 0)) 2 0 ∧
     (applyUsage (NewStreamingProcessor "m") (some (mkUsageNoDetails 5 2 7))).usage =
       mkClaudeUsage (max 0 (5 - 0)) 2 0 ∧
     extractUsage none = mkClaudeUsage 0 0 0 ∧
     applyUsage (NewStreamingProcessor "m") none = NewStreamingProcessor "m") :=
  ⟨by decide, by decide, by decide,
   usage_derivation (NewStreamingProcessor "m") 5 2 7 1 (by decide) (by decide) (by decide)⟩

/-! ## C9: unparseable Claude message content is passed through -/

/-- C9: a Claude message whose `content` parses as neither a JSON string
nor a block array yields no error and exactly one Chat message with the
same role and the raw bytes unchanged. -/
theorem convertMessage_passthrough (role bytes : String) :
    convertMessage { role := role, content := .raw bytes } =
      .ok [{ role := role, content := .raw bytes }] := rfl

/-! ## C6: 429 failover and the 502 default -/

/-- A parsed HTTP-200 error envelope with the given `code` value. -/
def mkErrEnv (msg etype : String) (code : Option CodeVal) : OErrorResponse :=
  { error := some { message := msg, errType := etype, code := code } }

/-- C6: an upstream HTTP 429, or an HTTP 200 whose body parses as an error
envelope with numeric code 429, yields the failover signal carrying the
status and body, writing nothing to the client; an HTTP-200 in-body error
whose code is absent or not numeric is replied with status 502. -/
theorem forward_429_failover (body msg etype s : String)
    (parsedErr : Option OErrorResponse) (isStream : Bool) :
    (forwardStatusDispatch 429 body parsedErr isStream = .failover 429 body ∧
     writesToClient (forwardStatusDispatch 429 body parsedErr isStream) = false) ∧
    (forwardStatusDispatch 200 body (some (mkErrEnv msg etype (some (.num 429)))) false =
       .failover 429 body ∧
     writesToClient (forwardStatusDispatch 200 body
        (some (mkErrEnv msg etype (some (.num 429)))) false) = false) ∧
    (forwardStatusDispatch 200 body (some (mkErrEnv msg etype none)) false =
       .clientError 502 (.claude "api_error" msg)) ∧
    (forwardStatusDispatch 200 body (some (mkErrEnv msg etype (some (.str s)))) false =
       .clientError 502 (.claude "api_error" msg)) ∧
    (forwardStatusDispatch 200 body (some (mkErrEnv msg etype (some .otherVal))) false =
       .clientError 502 (.claude "api_error" msg)) := by
  refine ⟨⟨?_, ?_⟩, ⟨?_, ?_⟩, ?_, ?_, ?_⟩ <;>
    simp [forwardStatusDispatch, writesToClient, mkErrEnv,
      TransformOpenAIErrorToClaude, mapErrorType]

/-! ## C4: the client-supplied model is echoed, not the mapped one -/

theorem forwardModelSelection_original (clientModel mapped : String) :
    (forwardModelSelection clientModel mapped).2 = clientModel := by
  unfold forwardModelSelection
  split <;> rfl

/-- C4: the model emitted to the client — in the non-streaming Claude
response and in the streaming `message_start` event — is the original
client-supplied model retained by the gateway's model-mapping step, even
when the mapping substitutes a different model for the upstream request
(`forwardModelSelection …

.1`, used for the upstream call and billing). -/
theorem model_echo_original (clientModel mapped : String) (argsNonNull : String → Bool)
    (resp : ChatResponse) (now : Nat) (r : Fin 12 → Fin 62) (env : LineEnv) (cid : String) :
    (forwardModelSelection clientModel mapped).2 = clientModel ∧
    ((mapped != "" && mapped != clientModel) = true →
      (forwardModelSelection clientModel mapped).1 = mapped) ∧
    (TransformOpenAIToClaude argsNonNull resp
        ((forwardModelSelection clientModel mapped).2) now r).1.model = clientModel ∧
    (emitMessageStart env
        (NewStreamingProcessor ((forwardModelSelection clientModel mapped).2)) cid).2 =
      [Event.messageStart (if cid == "" then "msg_" ++ env.rnd else cid) clientModel 0] := by
  refine ⟨forwardModelSelection_original clientModel mapped, ?_, ?_, ?_⟩
  · intro h
    unfold forwardModelSelection
    rw [if_pos h]
  · rw [forwardModelSelection_original]
    rfl
  · rw [forwardModelSelection_original]
    rfl

/-- Witness for `model_echo_original` with an active mapping
(`claude-x ↦ gpt-x`). -/
theorem model_echo_original_witness :
    (("gpt-x" != "" && "gpt-x" != "claude-x") = true) ∧
    ((forwardModelSelection "claude-x" "gpt-x").2 = "claude-x" ∧
     (("gpt-x" != "" && "gpt-x" != "claude-x") = true →
       (forwardModelSelection "claude-x" "gpt-x").1 = "gpt-x") ∧
     (TransformOpenAIToClaude (fun _ => false) { id := "cmpl_1" }
         ((forwardModelSelection "claude-x" "gpt-x").2) 0 (fun _ => 0)).1.model = "claude-x" ∧
     (emitMessageStart { now := 0, rnd := "" }
         (NewStreamingProcessor ((forwardModelSelection "claude-x" "gpt-x").2)) "cmpl_1").2 =
       [Event.messageStart (if "cmpl_1" == "" then "msg_" ++ "" else "cmpl_1") "claude-x" 0]) :=
  ⟨by decide,
   model_echo_original "claude-x" "gpt-x" (fun _ => false) { id := "cmpl_1" } 0
     (fun _ => 0) { now := 0, rnd := "" } "cmpl_1"⟩

/-! ## C8: response id synthesis -/

/-- The upstream response of the spec's scenario 1 (id `cmpl_1`). -/
def c8Resp : ChatResponse :=
  { id := "cmpl_1"
    choices := [{ message := { content := .str "hello" }, finishReason := "stop" }] }

/-- C8 counterexample: with upstream id `cmpl_1` the emitted id is
`cmpl_1`, which does not begin with `msg_` — the claim's universal
`msg_`-prefix part is false (the spec's own scenario 1 expects exactly
this id). -/
theorem convertID_counterexample :
    (TransformOpenAIToClaude (fun _ => false) c8Resp "claude-x" 0 (fun _ => 0)).1.id =
      "cmpl_1" ∧
    strHasDataPre "cmpl_1" "msg_" = false := by
  constructor
  · rfl
  · decide

theorem idCharList_alphanum : ∀ j : Fin idCharList.length, (idCharList.get j).isAlphanum = true := by
  decide

/-- C8 amended: a non-empty upstream id is passed through unchanged (with
no `msg_` guarantee); only an empty upstream id is replaced by `msg_`
followed by exactly 12 characters drawn from `[A-Za-z0-9]`. -/
theorem convertID_synthesis (r : Fin 12 → Fin 62) (openaiID : String)
    (h : openaiID ≠ "") :
    convertID openaiID r = openaiID ∧
    convertID "" r = "msg_" ++ randomID r ∧
    (randomID r).data.length = 12 ∧
    (randomID r).data.all Char.isAlphanum = true := by
  refine ⟨?_, rfl, ?_, ?_⟩
  · unfold convertID
    rw [if_pos]
    simpa using h
  · simp [randomID]
  · simp only [randomID, List.all_eq_true, List.mem_map]
    rintro c ⟨i, -, rfl⟩
    exact idCharList_alphanum _

/-- Witness for `convertID_synthesis` at `openaiID = "cmpl_1"` and the
all-zero random draw. -/
theorem convertID_synthesis_witness :
    ("cmpl_1" : String) ≠ "" ∧
    (convertID "cmpl_1" (fun _ => 0) = "cmpl_1" ∧
     convertID "" (fun _ => 0) = "msg_" ++ randomID (fun _ => 0) ∧
     (randomID (fun _ => 0)).data.length = 12 ∧
     (randomID (fun _ => 0)).data.all Char.isAlphanum = true) :=
  ⟨by decide, convertID_synthesis (fun _ => 0) "cmpl_1" (by decide)⟩

/-! ## C7: tool-result text extraction -/

/-- C7 counterexample input: a `tool_result` whose content is an object
array with text fields `"a"`, `""`, `"b"`. -/
def c7Block : ContentBlock :=
  { type := "tool_result"
    content := .arr [some "a", some "", some "b"] "[raw]" }

/-- C7 counterexample: the code joins *all* string text fields, so the
empty one contributes a separator: the result is `"a\n\nb"`, while the
claim's "non-empty text fields concatenated with `\n`" would give
`"a\nb"`. -/
theorem extractToolResultText_counterexample :
    extractToolResultText c7Block = "a\n\nb" ∧
    joinWith "\n"
      ((([some "a", some "", some "b"] : List (Option String)).filterMap id).filter
        (fun t => t != "")) = "a\nb" ∧
    ("a\n\nb" : String) ≠ "a\nb" := by
  refine ⟨rfl, rfl, by decide⟩

theorem foldl_textAcc (items : List (Option String)) (acc : List String) :
    items.foldl (fun acc item =>
      match item with
      | some text => acc ++ [text]
      | none => acc) acc = acc ++ items.filterMap id := by
  induction items generalizing acc with
  | nil => simp
  | cons hd tl ih =>
    cases hd <;> simp [ih]

/-- C7 amended: empty content yields the error/success sentinel keyed on
`is_error`; string content is returned byte-identical when non-blank after
trimming (else the sentinels); an object-array yields *all* string-typed
`text` fields — including empty ones — joined with `"\n"` when that join
is non-blank, else the raw bytes; anything else yields the raw bytes. -/
theorem extractToolResultText_cases (e : Bool) (s raw : String)
    (items : List (Option String)) :
    extractToolResultText { type := "tool_result", content := .empty, isError := e } =
      (if e then "Tool execution failed." else "Command executed successfully.") ∧
    extractToolResultText { type := "tool_result", content := .str s, isError := e } =
      (if trimSpace s == "" then
        (if e then "Tool execution failed." else "Command executed successfully.")
       else s) ∧
    extractToolResultText { type := "tool_result", content := .arr items raw, isError := e } =
      (if trimSpace (joinWith "\n" (items.filterMap id)) != "" then
        joinWith "\n" (items.filterMap id)
       else raw) ∧
    extractToolResultText { type := "tool_result", content := .nonParse raw, isError := e } =
      raw := by
  refine ⟨rfl, rfl, ?_, rfl⟩
  simp only [extractToolResultText, foldl_textAcc, List.nil_append]

/-! ## C3: reasoning-source priority in the non-streaming transformer -/

/-- The claim's selection rule, following its words: "the first non-empty
of `message.reasoning`, `message.reasoning_content`,
`message.thinking.content` (in that priority order)". -/
def claimReasoningText (msg : RespMessage) : String :=
  if msg.reasoning != "" then msg.reasoning
  else if msg.reasoningContent != "" then msg.reasoningContent
  else
    match msg.thinkingField with
    | some tf => tf.content
    | none => ""

/-- The selection the code actually performs: a non-empty
`thinking.content` takes priority over `reasoning`/`reasoning_content`. -/
def codeReasoningText (msg : RespMessage) : String :=
  match msg.thinkingField with
  | some tf =>
    if tf.content != "" then tf.content
    else if msg.reasoning != "" then msg.reasoning else msg.reasoningContent
  | none => if msg.reasoning != "" then msg.reasoning else msg.reasoningContent

/-- The signature the code attaches to the thinking block: the upstream
`thinking.signature` only when the `thinking.content` branch was taken and
the signature is non-empty, else the synthesized Unix-millisecond string. -/
def codeReasoningSig (msg : RespMessage) (now : Nat) : String :=
  match msg.thinkingField with
  | some tf =>
    if tf.content != "" then
      (if tf.signature == "" then generateFakeSignature now else tf.signature)
    else generateFakeSignature now
  | none => generateFakeSignature now

/-- C3 counterexample input: `reasoning = "a"` and
`thinking = {content:"b", signature:"sig"}`. -/
def c3Msg : RespMessage :=
  { reasoning := "a", thinkingField := some { content := "b", signature := "sig" } }

/-- The C3 upstream response wrapping `c3Msg`. -/
def c3Resp : ChatResponse :=
  { id := "x", choices := [{ message := c3Msg, finishReason := "stop" }] }

/-- C3 counterexample: with both `reasoning` and `thinking.content`
non-empty the claim's priority picks `"a"`, but the emitted thinking block
carries `"b"` — `thinking.content` overrides the other fields. -/
theorem reasoning_priority_counterexample :
    claimReasoningText c3Msg = "a" ∧
    (TransformOpenAIToClaude (fun _ => false) c3Resp "m" 0 (fun _ => 0)).1.content =
      [ClaudeContentItem.thinking "b" "sig"] ∧
    ("b" : String) ≠ "a" := by
  refine ⟨rfl, rfl, by decide⟩

/-- C3 amended: the reasoning text of the thinking block is
`thinking.content` when present and non-empty, else `reasoning` when
non-empty, else `reasoning_content`; when that text is non-empty a
thinking block is emitted first, whose signature is `thinking.signature`
when the `thinking.content` branch was taken and the signature is
non-empty, else the synthesized decimal Unix-millisecond string. -/
theorem reasoning_priority (argsNonNull : String → Bool) (msg : RespMessage)
    (i fr model : String) (rest : List RespChoice) (u : Option Usage)
    (now : Nat) (r : Fin 12 → Fin 62)
    (h : codeReasoningText msg ≠ "") :
    (TransformOpenAIToClaude argsNonNull
        { id := i, choices := { message := msg, finishReason := fr } :: rest, usage := u }
        model now r).1.content.head? =
      some (ClaudeContentItem.thinking (codeReasoningText msg) (codeReasoningSig msg now)) := by
  unfold TransformOpenAIToClaude
  cases htf : msg.thinkingField with
  | none =>
    simp only [codeReasoningText, htf] at h
    simp only [htf, codeReasoningText, codeReasoningSig]
    simp [h]
    split_ifs <;> simp_all
  | some tf =>
    by_cases hc : tf.content = ""
    · simp only [codeReasoningText, htf, hc] at h
      simp only [htf, codeReasoningText, codeReasoningSig, hc]
      simp [h]
      split_ifs <;> simp_all
    · simp only [htf, codeReasoningText, codeReasoningSig]
      simp [hc]
      split_ifs <;> simp_all

/-- Witness for `reasoning_priority` at the `c3Msg` input. -/
theorem reasoning_priority_witness :
    codeReasoningText c3Msg ≠ "" ∧
    (TransformOpenAIToClaude (fun _ => false)
        { id := "x", choices := { message := c3Msg, finishReason := "stop" } :: [], usage := none }
        "m" 0 (fun _ => 0)).1.content.head? =
      some (ClaudeContentItem.thinking (codeReasoningText c3Msg) (codeReasoningSig c3Msg 0)) :=
  ⟨by decide,
   reasoning_priority (fun _ => false) c3Msg "x" "stop" "m" [] none 0 (fun _ => 0) (by decide)⟩

/-! ## C10: an empty `data:` payload acts like the `[DONE]` sentinel -/

/-- C10: a line whose trimmed form is `data:` (payload empty after
trimming) is routed to `finishIfNeeded`, exactly like the `[DONE]`
sentinel; `finishIfNeeded` runs the terminal flush if and only if
`message_start` has been sent and `message_stop` has not, and otherwise
emits nothing and leaves the state unchanged. -/
theorem empty_payload_like_done (decode : String → Option StreamChunk)
    (env : LineEnv) (p : StreamingProcessor) (line : String)
    (h : trimSpace line = "data:") :
    ProcessLine decode env p line = finishIfNeeded env p ∧
    ProcessLine decode env p "data: [DONE]" = finishIfNeeded env p ∧
    (p.messageStartSent = true → p.messageStopSent = false →
      finishIfNeeded env p = emitFinish env p "stop") ∧
    (p.messageStartSent = false ∨ p.messageStopSent = true →
      finishIfNeeded env p = (p, [])) := by
  have hc : classifyLine line = .finishLine := by
    simp only [classifyLine]
    rw [h]
    decide
  have hd : classifyLine "data: [DONE]" = .finishLine := by decide
  refine ⟨?_, ?_, ?_, ?_⟩
  · simp only [ProcessLine, hc]
  · simp only [ProcessLine, hd]
  · intro h1 h2
    simp [finishIfNeeded, h1, h2]
  · rintro (h1 | h1) <;>
      cases h2 : p.messageStopSent <;>
      simp_all [finishIfNeeded]

/-- Witness for `empty_payload_like_done` at the line `"  data:  "` and a
started, not-yet-stopped processor. -/
theorem empty_payload_like_done_witness :
    trimSpace "  data:  " = "data:" ∧
    (ProcessLine (fun _ => none) { now := 0, rnd := "" }
        { NewStreamingProcessor "m" with messageStartSent := true } "  data:  " =
      finishIfNeeded { now := 0, rnd := "" }
        { NewStreamingProcessor "m" with messageStartSent := true } ∧
     ProcessLine (fun _ => none) { now := 0, rnd := "" }
        { NewStreamingProcessor "m" with messageStartSent := true } "data: [DONE]" =
      finishIfNeeded { now := 0, rnd := "" }
        { NewStreamingProcessor "m" with messageStartSent := true } ∧
     (({ NewStreamingProcessor "m" with
          messageStartSent := true } : StreamingProcessor).messageStartSent = true →
      ({ NewStreamingProcessor "m" with
          messageStartSent := true } : StreamingProcessor).messageStopSent = false →
      finishIfNeeded { now := 0, rnd := "" }
          { NewStreamingProcessor "m" with messageStartSent := true } =
        emitFinish { now := 0, rnd := "" }
          { NewStreamingProcessor "m" with messageStartSent := true } "stop") ∧
     (({ NewStreamingProcessor "m" with
          messageStartSent := true } : StreamingProcessor).messageStartSent = false ∨
      ({ NewStreamingProcessor "m" with
          messageStartSent := true } : StreamingProcessor).messageStopSent = true →
      finishIfNeeded { now := 0, rnd := "" }
          { NewStreamingProcessor "m" with messageStartSent := true } =
        ({ NewStreamingProcessor "m" with messageStartSent := true }, []))) :=
  ⟨by decide,
   empty_payload_like_done (fun _ => none) { now := 0, rnd := "" }
     { NewStreamingProcessor "m" with messageStartSent := true } "  data:  " (by decide)⟩

/-! ## C1: streaming event-stream invariants -/

/-- First failing chunk: a thinking delta `"a"` with a real signature
`"s"` (decoded from `c1Line1`). -/
def c1ChunkA : StreamChunk :=
  { id := "cmpl", choices := [{ delta := { thinking := some { content := "a", signature := "s" } } }] }

/-- Second failing chunk: `reasoning_content = "b"` opens a second
thinking block. -/
def c1ChunkB : StreamChunk :=
  { choices := [{ delta := { reasoningContent := "b" } }] }

/-- Third failing chunk: a text delta `"c"` forces the second thinking
block to close. -/
def c1ChunkC : StreamChunk :=
  { choices := [{ delta := { content := "c" } }] }

/-- The JSON payload of the first failing line. -/
def c1Pay1 : String :=
  "\x7b\"choices\":[\x7b\"delta\":\x7b\"thinking\":\x7b\"content\":\"a\",\"signature\":\"s\"\x7d\x7d\x7d],\"id\":\"cmpl\"\x7d"

/-- The JSON payload of the second failing line. -/
def c1Pay2 : String :=
  "\x7b\"choices\":[\x7b\"delta\":\x7b\"reasoning_content\":\"b\"\x7d\x7d]\x7d"

/-- The JSON payload of the third failing line. -/
def c1Pay3 : String :=
  "\x7b\"choices\":[\x7b\"delta\":\x7b\"content\":\"c\"\x7d\x7d]\x7d"

/-- The `json.Unmarshal` results for the three payloads above. -/
def c1Decode (s : String) : Option StreamChunk :=
  if s == c1Pay1 then some c1ChunkA
  else if s == c1Pay2 then some c1ChunkB
  else if s == c1Pay3 then some c1ChunkC
  else none

/-- The failing input: three upstream SSE lines. -/
def c1Lines : List (LineEnv × String) :=
  [({ now := 100 }, "data: " ++ c1Pay1),
   ({ now := 200 }, "data: " ++ c1Pay2),
   ({ now := 300 }, "data: " ++ c1Pay3)]

/-- C1 (code bug witnessed at the failing input): after a first thinking
block is closed by a real `signature_delta`, `thinkingGotSig` is never
reset, so the second thinking block (index 1) is closed by the text delta
with **no** `signature_delta` — `closeThinkingWithFakeSignature` skips the
fake-signature injection its documentation promises, violating the
invariant that every closed thinking block is preceded by exactly one
`signature_delta`. -/
theorem thinking_block_closed_without_signature :
    (runLines c1Decode (NewStreamingProcessor "m") c1Lines).2 =
      [Event.messageStart "cmpl" "m" 0,
       Event.blockStart 0 BlockInfo.thinking,
       Event.blockDelta 0 (Delta.thinkingDelta "a"),
       Event.blockDelta 0 (Delta.signatureDelta "s"),
       Event.blockStop 0,
       Event.blockStart 1 BlockInfo.thinking,
       Event.blockDelta 1 (Delta.thinkingDelta "b"),
       Event.blockStop 1,
       Event.blockStart 2 BlockInfo.text,
       Event.blockDelta 2 (Delta.textDelta "c")] ∧
    (runLines c1Decode (NewStreamingProcessor "m") c1Lines).2.contains
      (Event.blockStart 1 BlockInfo.thinking) = true ∧
    (runLines c1Decode (NewStreamingProcessor "m") c1Lines).2.contains
      (Event.blockStop 1) = true ∧
    signatureDeltaCount 1 (runLines c1Decode (NewStreamingProcessor "m") c1Lines).2 = 0 := by
  refine ⟨by decide, by decide, by decide, by decide⟩

/-! ## C5: tool-call assembly — map/payload lemmas -/

theorem findTC_setTC_self (m : List (Int × ToolCallState)) (i : Int) (st : ToolCallState) :
    findTC (setTC m i st) i = some st := by
  induction m with
  | nil => simp [setTC, findTC]
  | cons hd tl ih =>
    obtain ⟨j, s⟩ := hd
    by_cases h : j = i
    · simp [setTC, findTC, h]
    · simp [setTC, findTC, h, ih]

theorem findTC_setTC_ne (m : List (Int × ToolCallState)) (i j : Int) (st : ToolCallState)
    (h : i ≠ j) : findTC (setTC m j st) i = findTC m i := by
  induction m with
  | nil => simp [setTC, findTC, Ne.symm h]
  | cons hd tl ih =>
    obtain ⟨k, s⟩ := hd
    by_cases hk : k = j
    · simp [setTC, findTC, hk, Ne.symm h]
    · simp only [setTC, beq_iff_eq, hk, if_false, findTC]
      by_cases hki : k = i <;> simp [hki, ih]

theorem closeBlock_map (p : StreamingProcessor) :
    (closeBlock p).1.activeToolCalls = p.activeToolCalls := by
  simp only [closeBlock]
  split <;> rfl

theorem openBlock_map (p : StreamingProcessor) (bt : String) (cb : BlockInfo) :
    (openBlock p bt cb).1.activeToolCalls = p.activeToolCalls := by
  simp only [openBlock]
  split <;> rfl

theorem closeThinkingWithFakeSignature_map (env : LineEnv) (p : StreamingProcessor) :
    (closeThinkingWithFakeSignature env p).1.activeToolCalls = p.activeToolCalls := by
  simp only [closeThinkingWithFakeSignature]
  repeat' split
  all_goals simp [closeBlock_map]

theorem processSignatureDelta_map (p : StreamingProcessor) (sig : String) :
    (processSignatureDelta p sig).1.activeToolCalls = p.activeToolCalls := by
  simp only [processSignatureDelta]
  repeat' split
  all_goals simp [closeBlock_map]

theorem processTextDelta_map (env : LineEnv) (p : StreamingProcessor) (text : String) :
    (processTextDelta env p text).1.activeToolCalls = p.activeToolCalls := by
  simp only [processTextDelta]
  repeat' split
  all_goals simp [closeBlock_map, openBlock_map, closeThinkingWithFakeSignature_map]

theorem processThinkingDelta_map (p : StreamingProcessor) (text : String) :
    (processThinkingDelta p text).1.activeToolCalls = p.activeToolCalls := by
  simp only [processThinkingDelta]
  repeat' split
  all_goals simp [closeBlock_map, openBlock_map]

theorem emitMessageStart_map (env : LineEnv) (p : StreamingProcessor) (rid : String) :
    (emitMessageStart env p rid).1.activeToolCalls = p.activeToolCalls := by
  simp only [emitMessageStart]
  repeat' split
  all_goals rfl

theorem applyUsage_map (p : StreamingProcessor) (u : Option Usage) :
    (applyUsage p u).activeToolCalls = p.activeToolCalls := by
  cases u <;> rfl

theorem emitFinish_map (env : LineEnv) (p : StreamingProcessor) (fr : String) :
    (emitFinish env p fr).1.activeToolCalls = p.activeToolCalls := by
  simp only [emitFinish]
  repeat' split
  all_goals simp [closeBlock_map, closeThinkingWithFakeSignature_map]

theorem finishIfNeeded_map (env : LineEnv) (p : StreamingProcessor) :
    (finishIfNeeded env p).1.activeToolCalls = p.activeToolCalls := by
  simp only [finishIfNeeded]
  repeat' split
  all_goals simp [emitFinish_map]

theorem jsonPayloads_append (a b : List Event) :
    jsonPayloads (a ++ b) = jsonPayloads a ++ jsonPayloads b := by
  simp [jsonPayloads]

theorem closeBlock_payloads (p : StreamingProcessor) :
    jsonPayloads (closeBlock p).2 = [] := by
  simp only [closeBlock]
  split <;> simp [jsonPayloads]

theorem openBlock_payloads (p : StreamingProcessor) (bt : String) (cb : BlockInfo) :
    jsonPayloads (openBlock p bt cb).2 = [] := by
  simp only [openBlock]
  split <;> simp [jsonPayloads]

theorem closeThinkingWithFakeSignature_payloads (env : LineEnv) (p : StreamingProcessor) :
    jsonPayloads (closeThinkingWithFakeSignature env p).2 = [] := by
  simp only [closeThinkingWithFakeSignature]
  repeat' split
  all_goals simp [jsonPayloads, closeBlock_payloads, closeBlock]
  all_goals split <;> simp

theorem processSignatureDelta_payloads (p : StreamingProcessor) (sig : String) :
    jsonPayloads (processSignatureDelta p sig).2 = [] := by
  simp only [processSignatureDelta]
  repeat' split
  all_goals simp [jsonPayloads, closeBlock]
  all_goals split <;> simp

theorem processTextDelta_payloads (env : LineEnv) (p : StreamingProcessor) (text : String) :
    jsonPayloads (processTextDelta env p text).2 = [] := by
  simp only [processTextDelta]
  repeat' split
  all_goals
    simp only [jsonPayloads_append, closeBlock_payloads, openBlock_payloads,
      closeThinkingWithFakeSignature_payloads]
  all_goals simp [jsonPayloads]

theorem processThinkingDelta_payloads (p : StreamingProcessor) (text : String) :
    jsonPayloads (processThinkingDelta p text).2 = [] := by
  simp only [processThinkingDelta]
  repeat' split
  all_goals simp only [jsonPayloads_append, closeBlock_payloads, openBlock_payloads]
  all_goals simp [jsonPayloads]

theorem emitMessageStart_payloads (env : LineEnv) (p : StreamingProcessor) (rid : String) :
    jsonPayloads (emitMessageStart env p rid).2 = [] := by
  simp only [emitMessageStart]
  repeat' split
  all_goals simp [jsonPayloads]

theorem emitFinish_payloads (env : LineEnv) (p : StreamingProcessor) (fr : String) :
    jsonPayloads (emitFinish env p fr).2 = [] := by
  simp only [emitFinish]
  repeat' split
  all_goals
    simp only [jsonPayloads_append, closeBlock_payloads, closeThinkingWithFakeSignature_payloads]
  all_goals simp [jsonPayloads]

theorem finishIfNeeded_payloads (env : LineEnv) (p : StreamingProcessor) :
    jsonPayloads (finishIfNeeded env p).2 = [] := by
  simp only [finishIfNeeded]
  repeat' split
  all_goals simp only [emitFinish_payloads]
  all_goals simp [jsonPayloads]

theorem str_append_empty (s : String) : s ++ "" = s := by
  cases s with
  | mk l => exact congrArg String.mk (List.append_nil l)

theorem str_empty_append (s : String) : "" ++ s = s := by
  cases s with
  | mk l => rfl

theorem closeStep_map (env : LineEnv) (p : StreamingProcessor) :
    ((if p.blockOpen && p.blockType == "thinking" then closeThinkingWithFakeSignature env p
      else if p.blockOpen then closeBlock p
      else (p, [])).1).activeToolCalls = p.activeToolCalls := by
  repeat' split
  all_goals simp [closeThinkingWithFakeSignature_map, closeBlock_map]

theorem closeStep_payloads (env : LineEnv) (p : StreamingProcessor) :
    jsonPayloads ((if p.blockOpen && p.blockType == "thinking" then
        closeThinkingWithFakeSignature env p
      else if p.blockOpen then closeBlock p
      else (p, [])).2) = [] := by
  repeat' split
  all_goals simp only [closeThinkingWithFakeSignature_payloads, closeBlock_payloads]
  all_goals simp [jsonPayloads]

theorem closeStep_map2 (env : LineEnv) (p : StreamingProcessor) :
    ((if p.blockOpen = true ∧ p.blockType = "thinking" then closeThinkingWithFakeSignature env p
      else if p.blockOpen = true then closeBlock p
      else (p, [])).1).activeToolCalls = p.activeToolCalls := by
  repeat' split
  all_goals simp [closeThinkingWithFakeSignature_map, closeBlock_map]

theorem closeStep_payloads2 (env : LineEnv) (p : StreamingProcessor) :
    jsonPayloads ((if p.blockOpen = true ∧ p.blockType = "thinking" then
        closeThinkingWithFakeSignature env p
      else if p.blockOpen = true then closeBlock p
      else (p, [])).2) = [] := by
  repeat' split
  all_goals simp only [closeThinkingWithFakeSignature_payloads, closeBlock_payloads]
  all_goals simp [jsonPayloads]

theorem toolCallCreate_tcArgs (env : LineEnv) (p : StreamingProcessor) (tc : ToolCall)
    (i : Int) : tcArgs (toolCallCreate env p tc).1 i = tcArgs p i := by
  by_cases hnone : findTC p.activeToolCalls tc.index = none
  · by_cases hi : i = tc.index
    · subst hi
      simp only [toolCallCreate, hnone, Option.isNone_none, Bool.and_true, if_true]
      split
      all_goals simp [tcArgs, openBlock_map, closeStep_map, closeStep_map2,
        findTC_setTC_self, hnone]
    · simp only [toolCallCreate, hnone, Option.isNone_none, Bool.and_true, if_true]
      split
      all_goals simp [tcArgs, openBlock_map, closeStep_map, closeStep_map2,
        findTC_setTC_ne _ _ _ _ hi]
  · have hfalse : (findTC p.activeToolCalls tc.index).isNone = false := by
      cases hf : findTC p.activeToolCalls tc.index with
      | none => exact absurd hf hnone
      | some st => rfl
    simp [toolCallCreate, hfalse]

theorem toolCallCreate_find_isSome (env : LineEnv) (p : StreamingProcessor) (tc : ToolCall) :
    (findTC (toolCallCreate env p tc).1.activeToolCalls tc.index).isSome = true := by
  by_cases hnone : findTC p.activeToolCalls tc.index = none
  · simp only [toolCallCreate, hnone, Option.isNone_none, Bool.and_true, if_true]
    split
    all_goals simp [openBlock_map, closeStep_map, closeStep_map2, findTC_setTC_self]
  · have hfalse : (findTC p.activeToolCalls tc.index).isNone = false := by
      cases hf : findTC p.activeToolCalls tc.index with
      | none => exact absurd hf hnone
      | some st => rfl
    cases hf : findTC p.activeToolCalls tc.index with
    | none => exact absurd hf hnone
    | some st => simp [toolCallCreate, hfalse, hf]

theorem toolCallCreate_payloads (env : LineEnv) (p : StreamingProcessor) (tc : ToolCall) :
    jsonPayloads (toolCallCreate env p tc).2 = [] := by
  simp only [toolCallCreate]
  repeat' split
  all_goals simp only [jsonPayloads_append, closeStep_payloads, closeStep_payloads2,
    openBlock_payloads, closeThinkingWithFakeSignature_payloads, closeBlock_payloads]
  all_goals simp [jsonPayloads]

theorem processToolCallDelta_tcArgs (env : LineEnv) (p : StreamingProcessor) (tc : ToolCall)
    (i : Int) :
    tcArgs (processToolCallDelta env p tc).1 i =
      tcArgs p i ++
        (if tc.index == i && tc.function.arguments != "" then tc.function.arguments else "") := by
  simp only [processToolCallDelta]
  by_cases hargs : (tc.function.arguments != "") = true
  · simp only [hargs, Bool.and_true, if_true]
    split
    · next st heq =>
      have hst : st.arguments = tcArgs p tc.index := by
        have h1 := toolCallCreate_tcArgs env { p with usedTool := true } tc tc.index
        have h2 : tcArgs { p with usedTool := true } tc.index = tcArgs p tc.index := rfl
        rw [h2] at h1
        rw [← h1]
        simp [tcArgs, heq]
      by_cases hi : i = tc.index
      · subst hi
        simp [tcArgs, findTC_setTC_self, hst, hargs]
      · have hne : (tc.index == i) = false := by
          simp [Ne.symm hi]
        have h2 := toolCallCreate_tcArgs env { p with usedTool := true } tc i
        have h3 : tcArgs { p with usedTool := true } i = tcArgs p i := rfl
        rw [h3] at h2
        simp only [tcArgs, findTC_setTC_ne _ _ _ _ hi, hne, Bool.false_and,
          Bool.false_eq_true, if_false]
        rw [str_append_empty]
        simpa [tcArgs] using h2
    · next heq =>
      exfalso
      have hsome := toolCallCreate_find_isSome env { p with usedTool := true } tc
      rw [heq] at hsome
      simp at hsome
  · have hargs2 : (tc.function.arguments != "") = false := by simpa using hargs
    simp only [hargs2, Bool.and_false, Bool.false_eq_true, if_false]
    rw [str_append_empty]
    have h2 := toolCallCreate_tcArgs env { p with usedTool := true } tc i
    have h3 : tcArgs { p with usedTool := true } i = tcArgs p i := rfl
    rw [h3] at h2
    exact h2

theorem processToolCallDelta_payloads (env : LineEnv) (p : StreamingProcessor) (tc : ToolCall) :
    jsonPayloads (processToolCallDelta env p tc).2 =
      (if tc.function.arguments != "" then [tc.function.arguments] else []) := by
  simp only [processToolCallDelta]
  by_cases hargs : (tc.function.arguments != "") = true
  · simp only [hargs, if_true]
    split
    · next st heq =>
      simp only [jsonPayloads_append, toolCallCreate_payloads]
      simp [jsonPayloads]
    · next heq =>
      exfalso
      have hsome := toolCallCreate_find_isSome env { p with usedTool := true } tc
      rw [heq] at hsome
      simp at hsome
  · have hargs2 : (tc.function.arguments != "") = false := by simpa using hargs
    simp only [hargs2, Bool.false_eq_true, if_false]
    exact toolCallCreate_payloads env { p with usedTool := true } tc

theorem str_append_assoc (a b c : String) : (a ++ b) ++ c = a ++ (b ++ c) := by
  cases a with
  | mk la =>
    cases b with
    | mk lb =>
      cases c with
      | mk lc => exact congrArg String.mk (List.append_assoc la lb lc)

theorem concatAll_append (a b : List String) :
    concatAll (a ++ b) = concatAll a ++ concatAll b := by
  induction a with
  | nil => simp [concatAll, str_empty_append]
  | cons x xs ih =>
    simp only [List.cons_append, concatAll, List.foldr_cons] at *
    rw [ih, str_append_assoc]

theorem tcArgs_processTextDelta (env : LineEnv) (p : StreamingProcessor) (t : String)
    (i : Int) : tcArgs (processTextDelta env p t).1 i = tcArgs p i := by
  simp [tcArgs, processTextDelta_map]

theorem tcArgs_processThinkingDelta (p : StreamingProcessor) (t : String) (i : Int) :
    tcArgs (processThinkingDelta p t).1 i = tcArgs p i := by
  simp [tcArgs, processThinkingDelta_map]

theorem tcArgs_processSignatureDelta (p : StreamingProcessor) (s : String) (i : Int) :
    tcArgs (processSignatureDelta p s).1 i = tcArgs p i := by
  simp [tcArgs, processSignatureDelta_map]

theorem tcArgs_emitFinish (env : LineEnv) (p : StreamingProcessor) (fr : String) (i : Int) :
    tcArgs (emitFinish env p fr).1 i = tcArgs p i := by
  simp [tcArgs, emitFinish_map]

theorem tcArgs_finishIfNeeded (env : LineEnv) (p : StreamingProcessor) (i : Int) :
    tcArgs (finishIfNeeded env p).1 i = tcArgs p i := by
  simp [tcArgs, finishIfNeeded_map]

theorem tcArgs_emitMessageStart (env : LineEnv) (p : StreamingProcessor) (rid : String)
    (i : Int) : tcArgs (emitMessageStart env p rid).1 i = tcArgs p i := by
  simp [tcArgs, emitMessageStart_map]

theorem tcArgs_applyUsage (p : StreamingProcessor) (u : Option Usage) (i : Int) :
    tcArgs (applyUsage p u) i = tcArgs p i := by
  simp [tcArgs, applyUsage_map]

theorem processToolCallList_tcArgs (env : LineEnv) (p : StreamingProcessor)
    (tcs : List ToolCall) (i : Int) :
    tcArgs (processToolCallList env p tcs).1 i =
      tcArgs p i ++ concatAll (argsOfToolCalls i tcs) := by
  induction tcs generalizing p with
  | nil => simp [processToolCallList, argsOfToolCalls, concatAll, str_append_empty]
  | cons tc rest ih =>
    simp only [processToolCallList]
    rw [ih, processToolCallDelta_tcArgs]
    simp only [argsOfToolCalls] at *
    rw [List.filterMap_cons]
    by_cases hc : (tc.index == i && tc.function.arguments != "") = true
    · simp only [hc, if_true, concatAll, List.foldr_cons]
      rw [str_append_assoc]
    · have hc2 : (tc.index == i && tc.function.arguments != "") = false := by simpa using hc
      simp only [hc2, Bool.false_eq_true, if_false, str_append_empty]

theorem processToolCallList_payloads (env : LineEnv) (p : StreamingProcessor)
    (tcs : List ToolCall) :
    jsonPayloads (processToolCallList env p tcs).2 = allArgsOfToolCalls tcs := by
  induction tcs generalizing p with
  | nil => simp [processToolCallList, allArgsOfToolCalls, jsonPayloads]
  | cons tc rest ih =>
    simp only [processToolCallList, jsonPayloads_append]
    rw [ih, processToolCallDelta_payloads]
    simp only [allArgsOfToolCalls, List.filterMap_cons]
    by_cases hc : (tc.function.arguments != "") = true
    · simp [hc]
    · have hc2 : (tc.function.arguments != "") = false := by simpa using hc
      simp [hc2]

theorem tcArgs_choiceThinkingStep (p : StreamingProcessor) (d : StreamChunkDelta) (i : Int) :
    tcArgs (choiceThinkingStep p d).1 i = tcArgs p i := by
  simp only [choiceThinkingStep]
  repeat' split
  all_goals simp [tcArgs_processThinkingDelta, tcArgs_processSignatureDelta]

theorem tcArgs_choiceReasoningStep (p : StreamingProcessor) (d : StreamChunkDelta) (i : Int) :
    tcArgs (choiceReasoningStep p d).1 i = tcArgs p i := by
  simp only [choiceReasoningStep]
  repeat' split
  all_goals simp [tcArgs_processThinkingDelta]

theorem tcArgs_choiceTextStep (env : LineEnv) (p : StreamingProcessor) (d : StreamChunkDelta)
    (i : Int) : tcArgs (choiceTextStep env p d).1 i = tcArgs p i := by
  simp only [choiceTextStep]
  split
  all_goals simp [tcArgs_processTextDelta]

theorem tcArgs_choiceToolStep (env : LineEnv) (p : StreamingProcessor) (d : StreamChunkDelta)
    (i : Int) :
    tcArgs (choiceToolStep env p d).1 i =
      tcArgs p i ++ concatAll (argsOfToolCalls i d.toolCalls) := by
  simp only [choiceToolStep]
  split
  · exact processToolCallList_tcArgs env p d.toolCalls i
  · next h =>
    have : d.toolCalls = [] := by
      cases hd : d.toolCalls with
      | nil => rfl
      | cons a l => rw [hd] at h; simp at h
    simp [this, argsOfToolCalls, concatAll, str_append_empty]

theorem tcArgs_choiceFinishStep (env : LineEnv) (p : StreamingProcessor)
    (c : StreamChunkChoice) (i : Int) :
    tcArgs (choiceFinishStep env p c).1 i = tcArgs p i := by
  simp only [choiceFinishStep]
  repeat' split
  all_goals simp [tcArgs_emitFinish]

theorem processChoice_tcArgs (env : LineEnv) (p : StreamingProcessor)
    (c : StreamChunkChoice) (i : Int) :
    tcArgs (processChoice env p c).1 i =
      tcArgs p i ++ concatAll (argsOfToolCalls i c.delta.toolCalls) := by
  simp only [processChoice]
  rw [tcArgs_choiceFinishStep, tcArgs_choiceToolStep, tcArgs_choiceTextStep,
    tcArgs_choiceReasoningStep, tcArgs_choiceThinkingStep]

theorem choiceThinkingStep_payloads (p : StreamingProcessor) (d : StreamChunkDelta) :
    jsonPayloads (choiceThinkingStep p d).2 = [] := by
  simp only [choiceThinkingStep]
  repeat' split
  all_goals simp only [jsonPayloads_append, processThinkingDelta_payloads,
    processSignatureDelta_payloads]
  all_goals simp [jsonPayloads]

theorem choiceReasoningStep_payloads (p : StreamingProcessor) (d : StreamChunkDelta) :
    jsonPayloads (choiceReasoningStep p d).2 = [] := by
  simp only [choiceReasoningStep]
  repeat' split
  all_goals simp only [processThinkingDelta_payloads]
  all_goals simp [jsonPayloads]

theorem choiceTextStep_payloads (env : LineEnv) (p : StreamingProcessor)
    (d : StreamChunkDelta) : jsonPayloads (choiceTextStep env p d).2 = [] := by
  simp only [choiceTextStep]
  split
  all_goals simp only [processTextDelta_payloads]
  all_goals simp [jsonPayloads]

theorem choiceToolStep_payloads (env : LineEnv) (p : StreamingProcessor)
    (d : StreamChunkDelta) :
    jsonPayloads (choiceToolStep env p d).2 = allArgsOfToolCalls d.toolCalls := by
  simp only [choiceToolStep]
  split
  · exact processToolCallList_payloads env p d.toolCalls
  · next h =>
    have : d.toolCalls = [] := by
      cases hd : d.toolCalls with
      | nil => rfl
      | cons a l => rw [hd] at h; simp at h
    simp [this, allArgsOfToolCalls, jsonPayloads]

theorem choiceFinishStep_payloads (env : LineEnv) (p : StreamingProcessor)
    (c : StreamChunkChoice) : jsonPayloads (choiceFinishStep env p c).2 = [] := by
  simp only [choiceFinishStep]
  repeat' split
  all_goals simp only [emitFinish_payloads]
  all_goals simp [jsonPayloads]

theorem processChoice_payloads (env : LineEnv) (p : StreamingProcessor)
    (c : StreamChunkChoice) :
    jsonPayloads (processChoice env p c).2 = allArgsOfToolCalls c.delta.toolCalls := by
  simp only [processChoice, jsonPayloads_append]
  rw [choiceThinkingStep_payloads, choiceReasoningStep_payloads, choiceTextStep_payloads,
    choiceToolStep_payloads, choiceFinishStep_payloads]
  simp

theorem processChoiceList_tcArgs (env : LineEnv) (p : StreamingProcessor)
    (cs : List StreamChunkChoice) (i : Int) :
    tcArgs (processChoiceList env p cs).1 i =
      tcArgs p i ++ concatAll ((cs.map fun c => argsOfToolCalls i c.delta.toolCalls).flatten) := by
  induction cs generalizing p with
  | nil => simp [processChoiceList, concatAll, str_append_empty]
  | cons c rest ih =>
    simp only [processChoiceList]
    rw [ih, processChoice_tcArgs]
    simp only [List.map_cons, List.flatten_cons, concatAll_append, str_append_assoc]

theorem processChoiceList_payloads (env : LineEnv) (p : StreamingProcessor)
    (cs : List StreamChunkChoice) :
    jsonPayloads (processChoiceList env p cs).2 =
      (cs.map fun c => allArgsOfToolCalls c.delta.toolCalls).flatten := by
  induction cs generalizing p with
  | nil => simp [processChoiceList, jsonPayloads]
  | cons c rest ih =>
    simp only [processChoiceList, jsonPayloads_append]
    rw [ih, processChoice_payloads]
    simp

theorem processChunk_tcArgs (env : LineEnv) (p : StreamingProcessor) (chunk : StreamChunk)
    (i : Int) :
    tcArgs (processChunk env p chunk).1 i = tcArgs p i ++ concatAll (argsOfChunk i chunk) := by
  simp only [processChunk, argsOfChunk]
  rw [processChoiceList_tcArgs, tcArgs_applyUsage]
  split
  · rw [tcArgs_emitMessageStart]
  · rfl

theorem processChunk_payloads (env : LineEnv) (p : StreamingProcessor) (chunk : StreamChunk) :
    jsonPayloads (processChunk env p chunk).2 = allArgsOfChunk chunk := by
  simp only [processChunk, allArgsOfChunk, jsonPayloads_append]
  rw [processChoiceList_payloads]
  split
  · rw [emitMessageStart_payloads]
    simp
  · simp [jsonPayloads]

theorem ProcessLine_tcArgs (decode : String → Option StreamChunk) (env : LineEnv)
    (p : StreamingProcessor) (line : String) (i : Int) :
    tcArgs (ProcessLine decode env p line).1 i =
      tcArgs p i ++ concatAll (argsOfLine decode i (env, line)) := by
  simp only [ProcessLine, argsOfLine]
  cases classifyLine line with
  | drop => simp [concatAll, str_append_empty]
  | finishLine => simp [tcArgs_finishIfNeeded, concatAll, str_append_empty]
  | payload d =>
    cases hd : decode d with
    | none => simp [hd, concatAll, str_append_empty]
    | some chunk => simp [hd, processChunk_tcArgs]

theorem ProcessLine_payloads (decode : String → Option StreamChunk) (env : LineEnv)
    (p : StreamingProcessor) (line : String) :
    jsonPayloads (ProcessLine decode env p line).2 = allArgsOfLine decode (env, line) := by
  simp only [ProcessLine, allArgsOfLine]
  cases classifyLine line with
  | drop => simp [jsonPayloads]
  | finishLine => simp [finishIfNeeded_payloads]
  | payload d =>
    cases hd : decode d with
    | none => simp [hd, jsonPayloads]
    | some chunk => simp [hd, processChunk_payloads]

theorem runLines_tcArgs (decode : String → Option StreamChunk) (p : StreamingProcessor)
    (ls : List (LineEnv × String)) (i : Int) :
    tcArgs (runLines decode p ls).1 i = tcArgs p i ++ concatAll (argsOfLines decode i ls) := by
  induction ls generalizing p with
  | nil => simp [runLines, argsOfLines, concatAll, str_append_empty]
  | cons l rest ih =>
    obtain ⟨env, line⟩ := l
    simp only [runLines]
    rw [ih, ProcessLine_tcArgs]
    simp only [argsOfLines, List.map_cons, List.flatten_cons, concatAll_append,
      str_append_assoc]

theorem runLines_payloads (decode : String → Option StreamChunk) (p : StreamingProcessor)
    (ls : List (LineEnv × String)) :
    jsonPayloads (runLines decode p ls).2 = allArgsOfLines decode ls := by
  induction ls generalizing p with
  | nil => simp [runLines, allArgsOfLines, jsonPayloads]
  | cons l rest ih =>
    obtain ⟨env, line⟩ := l
    simp only [runLines, jsonPayloads_append]
    rw [ih, ProcessLine_payloads]
    simp [allArgsOfLines]

/-- C5: byte-for-byte tool-argument passthrough.  (1) Processing one
tool-call delta emits exactly one `input_json_delta` carrying the delta's
`arguments` chunk unchanged when it is non-empty, and none otherwise — so
the payloads emitted for a given tool call are exactly its upstream
chunks in order.  (2) Over any full run, the assembler accumulated for a
streaming index equals the concatenation of the non-empty `arguments`
chunks carrying that index, and (3) the whole stream's `input_json_delta`
payload sequence equals the sequence of all non-empty upstream chunks in
observed order. -/
theorem tool_call_passthrough (env : LineEnv) (p : StreamingProcessor) (tc : ToolCall)
    (decode : String → Option StreamChunk) (model : String)
    (ls : List (LineEnv × String)) (i : Int) :
    jsonPayloads (processToolCallDelta env p tc).2 =
      (if tc.function.arguments != "" then [tc.function.arguments] else []) ∧
    tcArgs (runLines decode (NewStreamingProcessor model) ls).1 i =
      concatAll (argsOfLines decode i ls) ∧
    jsonPayloads (runLines decode (NewStreamingProcessor model) ls).2 =
      allArgsOfLines decode ls := by
  refine ⟨processToolCallDelta_payloads env p tc, ?_, runLines_payloads decode _ ls⟩
  rw [runLines_tcArgs]
  have : tcArgs (NewStreamingProcessor model) i = "" := rfl
  rw [this, str_empty_append]
